import Mathlib

/-!
Shallow embedding of the natural-language command interpreter of the CAD-MCP
repository (`src/nlp_processor.py`, class `NLPProcessor`), together with proofs
settling the claims about it.

Modelling conventions:
* Python strings are Lean `String`s (lists of unicode scalar values).
* Numeric literals extracted from text are modelled as exact rationals (`ℚ`).
  Python converts them with `float`, which rounds to the nearest double; none of
  the properties proved here depends on the rounding, and every concrete value
  appearing in a theorem is exactly representable.
* The regex character classes `\s`, `\d`, `\w` are modelled on their ASCII core,
  with `\w` additionally covering the CJK Unified Ideographs block (all Chinese
  characters occurring in the keyword tables).  Python's `re` is fully
  Unicode-aware; the properties proved below do not depend on the exact
  extension of the classes.
* Fallible Python code (attribute accesses that raise) is modelled with
  `Except PyExc`.
-/

/-- Python exceptions that the modelled code can raise.  The only one reachable
is `AttributeError` (an access to an attribute that does not exist). -/
inductive PyExc where
  | attributeError (attr : String)
deriving DecidableEq

deriving instance DecidableEq for Except

/-- Model of regex `\d` (ASCII core): decimal digit. -/
def pyIsDigit (c : Char) : Bool := '0' ≤ c && c ≤ '9'

/-- Model of regex `\s` (ASCII core): whitespace. -/
def pyIsSpace (c : Char) : Bool :=
  c = ' ' || c = '\t' || c = '\n' || c = '\r' || c.toNat = 11 || c.toNat = 12

/-- ASCII letter. -/
def isAsciiAlpha (c : Char) : Bool :=
  ('a' ≤ c && c ≤ 'z') || ('A' ≤ c && c ≤ 'Z')

/-- Model of regex `\w`: ASCII word character or a CJK Unified Ideograph
(the block containing every Chinese character used by the program). -/
def pyIsWord (c : Char) : Bool :=
  isAsciiAlpha c || pyIsDigit c || c.toNat = 95 || (0x4e00 ≤ c.toNat && c.toNat ≤ 0x9fff)

/-- The quote character class `["']` used by several patterns
(34 is the double quote, 39 the single quote). -/
def isQuote (c : Char) : Bool := c.toNat = 34 || c.toNat = 39

/-- `str.lower` restricted to ASCII (the Chinese keywords are case-invariant). -/
def pyLowerChar (c : Char) : Char :=
  if 'A' ≤ c && c ≤ 'Z' then Char.ofNat (c.toNat + 32) else c

/-- `str.upper` restricted to ASCII. -/
def pyUpperChar (c : Char) : Char :=
  if 'a' ≤ c && c ≤ 'z' then Char.ofNat (c.toNat - 32) else c

def pyLower (s : String) : String := String.mk (s.data.map pyLowerChar)

def pyUpperStr (l : List Char) : String := String.mk (l.map pyUpperChar)

/-- `str.strip()`: remove leading and trailing whitespace. -/
def pyStrip (s : String) : String :=
  String.mk (((s.data.dropWhile pyIsSpace).reverse.dropWhile pyIsSpace).reverse)

/-- `pat` occurs as a contiguous subsequence starting at the head of `hay`. -/
def leadsWith : List Char → List Char → Bool
  | [], _ => true
  | _ :: _, [] => false
  | a :: as, b :: bs => a = b && leadsWith as bs

/-- Python's substring containment `pat in hay`. -/
def containsSeq (hay pat : List Char) : Bool :=
  match hay with
  | [] => pat.isEmpty
  | _ :: t => leadsWith pat hay || containsSeq t pat

/-- Python's `pat in s` on strings. -/
def substrB (pat s : String) : Bool := containsSeq s.data pat.data

/-- Numeric value of a decimal digit character. -/
def digitVal (c : Char) : ℕ := c.toNat - 48

/-- Value of a list of decimal digit characters. -/
def digitsToNat (ds : List Char) : ℕ := ds.foldl (fun n c => 10 * n + digitVal c) 0

/-- Exact value of the decimal literal with integer digits `ds` and fractional
digits `fs` (what Python's `float` would parse, without rounding): the
rational `digitsToNat (ds ++ fs) / 10 ^ fs.length`, built with `mkRat` so that
it evaluates by kernel reduction. -/
def decVal (ds fs : List Char) : ℚ := mkRat (digitsToNat (ds ++ fs)) (10 ^ fs.length)

/-- Parse the greedy match of `\d+\.?\d*` at the head of `cs` (the head is known
to be a digit); returns the value and the unconsumed rest. -/
def parseDec (cs : List Char) : ℚ × List Char :=
  match cs.dropWhile pyIsDigit with
  | c :: r2 =>
    if c.toNat = 46 then
      (decVal (cs.takeWhile pyIsDigit) (r2.takeWhile pyIsDigit), r2.dropWhile pyIsDigit)
    else (decVal (cs.takeWhile pyIsDigit) [], c :: r2)
  | [] => (decVal (cs.takeWhile pyIsDigit) [], [])

/-- Head of the list is a digit. -/
def headDigit : List Char → Bool
  | [] => false
  | d :: _ => pyIsDigit d

/-! ### Index-based helpers for the coordinate pattern

`_extract_coordinates` uses
`re.finditer(r'\(?\s*(-?\d+\.?\d*)\s*,\s*(-?\d+\.?\d*)(?:\s*,\s*(-?\d+\.?\d*))?\s*\)?', text)`.
For this pattern the greedy first-choice parse is the backtracking-free truth:
every quantified piece (`\d+`, `\d*`, `\s*`, the optional sign, dot, third
group and parentheses) is followed by a piece drawn from a disjoint character
set, so no backtracking alternative can succeed where the greedy parse fails.
The matcher below therefore consumes greedily left to right. -/

/-- Character at index `i`, if any. -/
def getC (cs : List Char) (i : ℕ) : Option Char := cs.get? i

/-- End index of the maximal run of characters satisfying `p` starting at `i`. -/
def runEnd (p : Char → Bool) (cs : List Char) (i : ℕ) : ℕ :=
  i + ((cs.drop i).takeWhile p).length

def skipWs (cs : List Char) (i : ℕ) : ℕ := runEnd pyIsSpace cs i

/-- The maximal digit run starting at index `i`. -/
def digitsAt (cs : List Char) (i : ℕ) : List Char := (cs.drop i).takeWhile pyIsDigit

/-- Match `\d+\.?\d*` at index `s`; returns the value and the end index. -/
def matchNumTail (cs : List Char) (s : ℕ) : Option (ℚ × ℕ) :=
  if (digitsAt cs s).isEmpty then none
  else if getC cs (s + (digitsAt cs s).length) = some '.' then
    some (decVal (digitsAt cs s) (digitsAt cs (s + (digitsAt cs s).length + 1)),
      s + (digitsAt cs s).length + 1 + (digitsAt cs (s + (digitsAt cs s).length + 1)).length)
  else
    some (decVal (digitsAt cs s) [], s + (digitsAt cs s).length)

/-- Match `-?\d+\.?\d*` at index `i`; returns the signed value and end index. -/
def matchNumFrom (cs : List Char) (i : ℕ) : Option (ℚ × ℕ) :=
  if getC cs i = some '-' then
    match matchNumTail cs (i + 1) with
    | some (v, j) => some (-v, j)
    | none => none
  else matchNumTail cs i

/-- One match of the coordinate pattern: its span in the text, the two
mandatory number groups, and the optional third group (`None` in Python when
the `(?:\s*,\s*...)?` part did not participate). -/
structure CoordMatch where
  start : ℕ
  stop : ℕ
  x : ℚ
  y : ℚ
  g3 : Option ℚ
deriving DecidableEq

/-- The optional third coordinate group `(?:\s*,\s*(-?\d+\.?\d*))?` tried at
index `i5` (the end of the second group): the captured value and the index the
overall match continues from. -/
def matchThirdGroup (cs : List Char) (i5 : ℕ) : Option ℚ × ℕ :=
  if getC cs (skipWs cs i5) = some ',' then
    match matchNumFrom cs (skipWs cs (skipWs cs i5 + 1)) with
    | some (z, j) => (some z, j)
    | none => (none, i5)
  else (none, i5)

/-- The trailing `\s*\)?` of the coordinate pattern. -/
def closeParen (cs : List Char) (i : ℕ) : ℕ :=
  if getC cs (skipWs cs i) = some ')' then skipWs cs i + 1 else skipWs cs i

/-- Try to match the whole coordinate pattern at index `p` (leading `\(?\s*`,
the two mandatory groups separated by `\s*,\s*`, the optional third group,
then `\s*\)?`). -/
def matchCoordFrom (cs : List Char) (p : ℕ) : Option CoordMatch :=
  match matchNumFrom cs (skipWs cs (if getC cs p = some '(' then p + 1 else p)) with
  | none => none
  | some (x, i2) =>
    if getC cs (skipWs cs i2) = some ',' then
      match matchNumFrom cs (skipWs cs (skipWs cs i2 + 1)) with
      | none => none
      | some (y, i5) =>
        some ⟨p, closeParen cs (matchThirdGroup cs i5).2, x, y, (matchThirdGroup cs i5).1⟩
    else none

/-- `re.finditer` for the coordinate pattern: leftmost matches, scanning
resumes after each match.  `fuel` dominates the number of scanning steps; the
scan position strictly increases at each step, so `cs.length + 1` steps always
suffice. -/
def findCoordMatches (cs : List Char) : ℕ → ℕ → List CoordMatch
  | 0, _ => []
  | fuel + 1, i =>
    if cs.length ≤ i then []
    else
      match matchCoordFrom cs i with
      | some m => m :: findCoordMatches cs fuel m.stop
      | none => findCoordMatches cs fuel (i + 1)

/-- All coordinate-pattern matches of a string, in scanning order. -/
def coordMatches (s : String) : List CoordMatch :=
  findCoordMatches s.data (s.data.length + 1) 0

/-- The coordinate a match denotes: `z = float(group(3)) if group(3) else 0.0`. -/
def coordOf (m : CoordMatch) : ℚ × ℚ × ℚ := (m.x, m.y, m.g3.getD 0)

/-- `NLPProcessor._extract_coordinates`. -/
def extractCoordinates (s : String) : List (ℚ × ℚ × ℚ) := (coordMatches s).map coordOf

/-- `re.findall(r'(-?\d+\.?\d*)', text)` used by `_extract_numbers`. -/
def scanNumbers : ℕ → List Char → List ℚ
  | 0, _ => []
  | _, [] => []
  | f + 1, c :: r =>
    if pyIsDigit c then
      (parseDec (c :: r)).1 :: scanNumbers f (parseDec (c :: r)).2
    else if c.toNat = 45 ∧ headDigit r then
      (-(parseDec r).1) :: scanNumbers f (parseDec r).2
    else scanNumbers f r

/-- `NLPProcessor._extract_numbers`. -/
def extractNumbers (s : String) : List ℚ := scanNumbers s.data.length s.data

/-! ### Label-then-value searches

Several builders use `re.search` with patterns of the form
`(?:label1|label2|...)` followed by a lazy skip and a captured value.
`re.search` returns the leftmost match: the scan tries every start position
left to right, at each position the alternatives in source order, and the lazy
skip (`[^\d]*?` or `[^\w]*?`) grows one character at a time, so the captured
value is the first admissible one after the first label occurrence that has
an admissible value after it. -/

/-- Match a literal label at the head of `cs` (case-insensitively when `ci`,
modelling `re.IGNORECASE`) and return the unconsumed rest. -/
def stripLabel (ci : Bool) : List Char → List Char → Option (List Char)
  | [], cs => some cs
  | _ :: _, [] => none
  | p :: ps, c :: cs =>
    if (if ci then pyLowerChar p = pyLowerChar c else p = c) then stripLabel ci ps cs
    else none

/-- Try the labels in source order at the current position and run the
continuation `after` (the rest of the pattern) on the remaining text. -/
def tryLabelsAt {α : Type} (ci : Bool) (labels : List (List Char))
    (after : List Char → Option α) (cs : List Char) : Option α :=
  labels.findSome? fun lab => (stripLabel ci lab cs).bind after

/-- Leftmost-match search: scan positions left to right, and at each position
try the label alternation followed by the continuation. -/
def searchLabelThen {α : Type} (ci : Bool) (labels : List (List Char))
    (after : List Char → Option α) : List Char → Option α
  | [] => none
  | c :: r =>
    match tryLabelsAt ci labels after (c :: r) with
    | some v => some v
    | none => searchLabelThen ci labels after r

/-- The continuation `[^\d]*?(-?\d+\.?\d*)` (with the sign only when `signed`;
the unsigned variant models `[^\d]*?(\d+\.?\d*)`): the lazy skip cannot cross a
digit, so the captured number starts at the first digit, taking a directly
preceding minus sign when the pattern allows one. -/
def numberAfter (signed : Bool) : List Char → Option ℚ
  | [] => none
  | c :: r =>
    if pyIsDigit c then some (parseDec (c :: r)).1
    else if signed ∧ c.toNat = 45 ∧ headDigit r then some (-(parseDec r).1)
    else numberAfter signed r

/-- `re.search` for a `(?:labels)[^\d]*?(number)` pattern over a string. -/
def searchLabelNumber (ci signed : Bool) (labels : List String) (s : String) : Option ℚ :=
  searchLabelThen ci (labels.map String.data) (numberAfter signed) s.data

/-- The continuation `[^\w]*?(\w+)`: lazily skip non-word characters, then
capture the greedy word run. -/
def wordAfter : List Char → Option (List Char)
  | [] => none
  | c :: r => if pyIsWord c then some ((c :: r).takeWhile pyIsWord) else wordAfter r

/-- The lazy group `(.*?)` up to a closing `["']`: the shortest prefix (not
containing a newline, which `.` does not match) that is followed by a quote. -/
def contentToQuote : List Char → Option (List Char)
  | [] => none
  | a :: r =>
    if isQuote a then some []
    else if a.toNat = 10 then none
    else
      match contentToQuote r with
      | some g => some (a :: g)
      | none => none

/-- The lazy group `(.*?)` up to `["']'` (a quote followed by a literal single
quote, as in the malformed first hatch pattern). -/
def contentToQuoteApos : List Char → Option (List Char)
  | [] => none
  | [_] => none
  | a :: b :: r =>
    if isQuote a ∧ b.toNat = 39 then some []
    else if a.toNat = 10 then none
    else
      match contentToQuoteApos (b :: r) with
      | some g => some (a :: g)
      | none => none

/-- The continuation `[^\w]*?["\'](.*?)["\']`: the lazy skip may cross only
non-word characters (quotes are non-word, so a failed opener is skipped and the
next reachable quote is tried). -/
def quotedAfter : List Char → Option (List Char)
  | [] => none
  | c :: r =>
    if isQuote c then
      match contentToQuote r with
      | some g => some g
      | none => quotedAfter r
    else if pyIsWord c then none
    else quotedAfter r

/-- The continuation `[^\w]*?["\'](.*?)["\']\'` of the malformed first hatch
pattern (note the trailing single quote in the source regex). -/
def quotedAfterApos : List Char → Option (List Char)
  | [] => none
  | c :: r =>
    if isQuote c then
      match contentToQuoteApos r with
      | some g => some g
      | none => quotedAfterApos r
    else if pyIsWord c then none
    else quotedAfterApos r

/-- `re.search(r'[\"\'](.*?)[\"\']', command)`: first quoted substring. -/
def searchQuoted : List Char → Option (List Char)
  | [] => none
  | c :: r =>
    if isQuote c then
      match contentToQuote r with
      | some g => some g
      | none => searchQuoted r
    else searchQuoted r

/-- The character class `[文本内容|text|内容]` of `_parse_draw_text`'s
`text_pattern` (a class, not an alternation: the brackets in the source make it
match any single one of these characters, `|` included). -/
def textLabelClass (c : Char) : Bool :=
  c = '文' || c = '本' || c = '内' || c = '容' || c.toNat = 124 ||
    c = 't' || c = 'e' || c = 'x'

/-- The class `[：:]`. -/
def colonClass (c : Char) : Bool := c.toNat = 58 || c = '：'

/-- Match `[文本内容|text|内容][：:]\s*["\'](.*?)["\']` at the current position. -/
def textLabeledAt : List Char → Option (List Char)
  | c :: d :: r2 =>
    if textLabelClass c ∧ colonClass d then
      match r2.dropWhile pyIsSpace with
      | q :: r3 => if isQuote q then contentToQuote r3 else none
      | [] => none
    else none
  | _ => none

/-- `re.search` of `_parse_draw_text`'s `text_pattern`. -/
def searchTextLabeled : List Char → Option (List Char)
  | [] => none
  | c :: r =>
    match textLabeledAt (c :: r) with
    | some g => some g
    | none => searchTextLabeled r

/-! ### Keyword tables and the color map (`NLPProcessor.__init__`)

Python 3.7+ dictionaries iterate in insertion order; the tables are therefore
ordered association lists, in exactly the order of the source. -/

/-- `self.shape_keywords`. -/
def shapeKeywords : List (String × String) := [
  ("直线", "line"), ("线", "line"),
  ("圆", "circle"), ("圆形", "circle"),
  ("弧", "arc"), ("圆弧", "arc"),
  ("矩形", "rectangle"), ("方形", "rectangle"), ("正方形", "square"),
  ("多段线", "polyline"), ("折线", "polyline"),
  ("文本", "text"), ("文字", "text"),
  ("标注", "dimension"), ("尺寸标注", "dimension"),
  ("墙", "wall"), ("墙体", "wall"),
  ("门", "door"), ("窗", "window"),
  ("楼梯", "stair"), ("柱子", "column"),
  ("插座", "outlet"),
  ("开关", "switch"),
  ("灯", "light"), ("灯具", "light"),
  ("配电箱", "distribution_box"),
  ("轴", "shaft"),
  ("齿轮", "gear"),
  ("轴承", "bearing"),
  ("法兰", "flange")]

/-- `self.action_keywords`. -/
def actionKeywords : List (String × String) := [
  ("画", "draw"), ("绘制", "draw"), ("创建", "draw"), ("添加", "draw"),
  ("修改", "modify"), ("调整", "modify"), ("改变", "modify"),
  ("移动", "move"), ("旋转", "rotate"), ("缩放", "scale"),
  ("放大", "scale_up"), ("缩小", "scale_down"),
  ("删除", "erase"), ("擦除", "erase"), ("移除", "erase"),
  ("保存", "save"),
  ("标注", "dimension"),
  ("填充", "hatch"),
  ("创建图层", "create_layer"),
  ("切换图层", "change_layer")]

/-- `self.color_rgb_map`, in the definition order of the source. -/
def colorRgbMap : List (String × ℕ) := [
  ("红色", 1), ("黄色", 2), ("绿色", 3), ("青色", 4), ("蓝色", 5),
  ("洋红色", 6), ("白色", 7), ("灰色", 8), ("浅灰色", 9), ("黑色", 250),
  ("棕色", 251), ("橙色", 30), ("紫色", 200),
  ("Red", 1), ("Yellow", 2), ("Green", 3), ("Cyan", 4), ("Blue", 5),
  ("Magenta", 6), ("White", 7), ("Gray", 8), ("Light Gray", 9), ("Black", 250),
  ("Brown", 251), ("Orange", 30), ("Purple", 200)]

/-- `self.domain_keywords` is referenced by `_identify_command_type`, but its
definition in `__init__` is commented out, so the attribute access raises
`AttributeError` on every call. -/
def domainKeywordsLookup : Except PyExc (List (String × String)) :=
  .error (.attributeError "domain_keywords")

/-! ### Color resolver (`extract_color_from_command`) -/

/-- All decimal digits, at least one: the strings accepted by Python's
`int()` after the optional sign (digit-group underscores are not modelled;
they cannot occur in the inputs of any claim). -/
def digitsOnly (cs : List Char) : Option ℕ :=
  if !cs.isEmpty && cs.all pyIsDigit then some (digitsToNat cs) else none

/-- Python's `int(s)`: optional surrounding whitespace, optional sign, digits. -/
def pyIntParse (s : String) : Option ℤ :=
  match ((s.data.dropWhile pyIsSpace).reverse.dropWhile pyIsSpace).reverse with
  | [] => none
  | c :: r =>
    if c.toNat = 45 then (digitsOnly r).map (fun n => -(n : ℤ))
    else if c.toNat = 43 then (digitsOnly r).map (fun n => (n : ℤ))
    else (digitsOnly (c :: r)).map (fun n => (n : ℤ))

/-- The intensity-character class `[深浅淡]` of the generic color pattern. -/
def intensityChar (c : Char) : Bool := c = '深' || c = '浅' || c = '淡'

/-- The class `[a-zA-Z一-龥]` of the generic color pattern. -/
def colorClassChar (c : Char) : Bool :=
  isAsciiAlpha c || (0x4e00 ≤ c.toNat && c.toNat ≤ 0x9fa5)

/-- Greedy match of `[a-zA-Z一-龥]+色` at the head of `cs`: the `+` run
is maximal, then backtracks to the last `色` strictly inside it (the character
after the run cannot be `色`, since `色` belongs to the class). -/
def xPlusSe (cs : List Char) : Option (List Char × List Char) :=
  match ((List.range (cs.takeWhile colorClassChar).length).filter
      (fun m => decide (1 ≤ m ∧ (cs.takeWhile colorClassChar).getD m ' ' = '色'))).getLast? with
  | some m => some (cs.take (m + 1), cs.drop (m + 1))
  | none => none

/-- Match `[深浅淡]?[a-zA-Z一-龥]+色` at the head of `cs` (the optional
intensity prefix is tried greedily, then dropped on failure). -/
def colorTokenAt (cs : List Char) : Option (List Char × List Char) :=
  match cs with
  | [] => none
  | c :: r =>
    if intensityChar c then
      match xPlusSe r with
      | some (b, rest) => some (c :: b, rest)
      | none => xPlusSe (c :: r)
    else xPlusSe (c :: r)

/-- `re.findall` of the generic color pattern. -/
def colorFindall : ℕ → List Char → List (List Char)
  | 0, _ => []
  | _, [] => []
  | f + 1, c :: r =>
    match colorTokenAt (c :: r) with
    | some (m, rest) => m :: colorFindall f rest
    | none => colorFindall f r

/-- The part of `extract_color_from_command` after the `int()` attempt: lower
the command, scan the color table for a contained name (definition order, first
match wins), then re-check each generic color-pattern capture against the
table, and default to 7 (white). -/
def colorScanDefault (cmd : String) : ℕ :=
  match colorRgbMap.findSome?
      (fun kv => if substrB (pyLower kv.1) (pyLower cmd) then some kv.2 else none) with
  | some v => v
  | none =>
    match (colorFindall (pyLower cmd).data.length (pyLower cmd).data).findSome?
        (fun m => colorRgbMap.findSome?
          (fun kv => if kv.1 = String.mk m then some kv.2 else none)) with
    | some v => v
    | none => 7

/-- `NLPProcessor.extract_color_from_command` (`None` maps to 7; an integer in
`[1, 255]` is returned directly; otherwise the name scan runs). -/
def extractColorFromCommand (command : Option String) : ℕ :=
  match command with
  | none => 7
  | some cmd =>
    match pyIntParse cmd with
    | some n => if 1 ≤ n ∧ n ≤ 255 then n.toNat else colorScanDefault cmd
    | none => colorScanDefault cmd

/-! ### Command descriptors

Each `_parse_*` builder returns a dict with a `"type"` discriminant; the
variants below mirror the dict shapes the live code constructs (the optional
`note` key of the draw-line default branch is an `Option`). -/

inductive Descriptor where
  | drawLine (startPoint endPoint : ℚ × ℚ × ℚ) (note : Option String)
  | drawCircle (center : ℚ × ℚ × ℚ) (radius : ℚ)
  | drawArc (center : ℚ × ℚ × ℚ) (radius startAngle endAngle : ℚ)
  | drawRectangle (corner1 corner2 : ℚ × ℚ × ℚ)
  | drawPolyline (points : List (ℚ × ℚ × ℚ)) (closed : Bool)
  | drawText (position : ℚ × ℚ × ℚ) (text : String) (height rotationDeg : ℚ)
  | drawHatch (points : List (ℚ × ℚ × ℚ)) (patternName : String) (scale : ℚ)
  | drawWall (startPoint endPoint : ℚ × ℚ × ℚ) (width : ℚ)
  | save (filePath : String)
  | unknown (errorText originalCommand : String)
  | error (message : String)
deriving DecidableEq

/-- First extracted coordinate, defaulting to the origin. -/
def headCoord : List (ℚ × ℚ × ℚ) → ℚ × ℚ × ℚ
  | c :: _ => c
  | [] => (0, 0, 0)

/-! ### Parameter builders (`_parse_draw_line` .. `_parse_create_layer`)

Two of the builders are mismatched in the source: the body of `_parse_save`
parses a *wall* command (its docstring says so), and the body of
`_parse_create_layer` parses a *save* command.  The definitions below keep the
source's names and bodies. -/

/-- `NLPProcessor._parse_draw_line`. -/
def parseDrawLine (command : String) : Descriptor :=
  match extractCoordinates command with
  | c1 :: c2 :: _ => .drawLine c1 c2 none
  | _ => .drawLine (0, 0, 0) (100, 100, 0)
      (some "使用默认坐标，因为命令中未提供足够的坐标信息")

/-- The radius logic shared verbatim by `_parse_draw_circle` and
`_parse_draw_arc`: named `(?:半径|r|radius)[^\d]*?(-?\d+\.?\d*)` first, then
the first bare number, then 50. -/
def circleRadius (command : String) : ℚ :=
  match searchLabelNumber true true ["半径", "r", "radius"] command with
  | some v => v
  | none =>
    match extractNumbers command with
    | n :: _ => n
    | [] => 50

/-- `NLPProcessor._parse_draw_circle`. -/
def parseDrawCircle (command : String) : Descriptor :=
  .drawCircle (headCoord (extractCoordinates command)) (circleRadius command)

/-- `NLPProcessor._parse_draw_arc`. -/
def parseDrawArc (command : String) : Descriptor :=
  .drawArc (headCoord (extractCoordinates command)) (circleRadius command)
    ((searchLabelNumber true true ["起始角度", "start angle"] command).getD 0)
    ((searchLabelNumber true true ["结束角度", "end angle"] command).getD 90)

/-- `NLPProcessor._parse_draw_rectangle`. -/
def parseDrawRectangle (command : String) : Descriptor :=
  match extractCoordinates command with
  | c1 :: c2 :: _ => .drawRectangle c1 c2
  | coords =>
    match coords with
    | [c1] => .drawRectangle c1
        (c1.1 + (searchLabelNumber true true ["宽度", "width"] command).getD 100,
         c1.2.1 + (searchLabelNumber true true ["高度", "height"] command).getD 100,
         c1.2.2)
    | _ => .drawRectangle (0, 0, 0)
        ((searchLabelNumber true true ["宽度", "width"] command).getD 100,
         (searchLabelNumber true true ["高度", "height"] command).getD 100, 0)

/-- `NLPProcessor._parse_draw_text`. -/
def parseDrawText (command : String) : Descriptor :=
  .drawText (headCoord (extractCoordinates command))
    (match searchTextLabeled command.data with
     | some g => String.mk g
     | none =>
       match searchQuoted command.data with
       | some g => String.mk g
       | none => "示例文本")
    ((searchLabelNumber true true ["高度", "height"] command).getD (5 / 2))
    ((searchLabelNumber true true ["旋转", "角度", "rotation"] command).getD 0)

/-- `NLPProcessor._parse_draw_polyline`. -/
def parseDrawPolyline (command : String) : Descriptor :=
  if 2 ≤ (extractCoordinates command).length then
    .drawPolyline (extractCoordinates command)
      (substrB "闭合" command || substrB "封闭" command)
  else .error "绘制多段线需要至少两个坐标点"

/-- The hatch pattern name: the first of the two `pattern_patterns` that
matches wins; the first one is malformed (it requires a quote followed by a
single quote after the quoted name), the second captures a bare word. -/
def hatchPatternName (command : String) : String :=
  match searchLabelThen true [String.data "图案", String.data "pattern"]
      quotedAfterApos command.data with
  | some g => pyUpperStr g
  | none =>
    match searchLabelThen true [String.data "图案", String.data "pattern"]
        wordAfter command.data with
    | some w => pyUpperStr w
    | none => "SOLID"

/-- The hatch scale: `(?:比例|缩放|scale)[^\d]*?(\d+\.?\d*)` (unsigned), else 1. -/
def hatchScale (command : String) : ℚ :=
  (searchLabelNumber true false ["比例", "缩放", "scale"] command).getD 1

/-- `NLPProcessor._parse_draw_hatch`. -/
def parseDrawHatch (command : String) : Descriptor :=
  if 3 ≤ (extractCoordinates command).length then
    .drawHatch (extractCoordinates command) (hatchPatternName command) (hatchScale command)
  else .error "绘制填充需要至少3个点来定义边界"

/-- `NLPProcessor._parse_save`.  Despite its name, its body (and docstring)
parse a *draw wall* command: it extracts two coordinates and a width and never
builds a save descriptor. -/
def parseSave (command : String) : Descriptor :=
  match extractCoordinates command with
  | c1 :: c2 :: _ => .drawWall c1 c2
      ((searchLabelThen false
          [String.data "宽度", String.data "宽", String.data "厚", String.data "厚度"]
          (numberAfter false) command.data).getD 10)
  | _ => .error "绘制墙体需要提供起点和终点坐标"

/-- Modelled from the spec: `src/config.json` is loaded at import time but is
not among the provided sources; the spec names its defaults — output directory
`"out"` and default filename `"drawing.dwg"` — and `os.path.join` on two bare
relative components inserts a single separator. -/
def configOutputDirectory : String := "out"

/-- Modelled from the spec: the configured default output filename. -/
def configDefaultFilename : String := "drawing.dwg"

/-- `os.path.join` for two bare relative components. -/
def osPathJoin (a b : String) : String := a ++ "/" ++ b

/-- `NLPProcessor._parse_create_layer`.  Despite its name, its body (and
docstring) parse a *save* command: it extracts a quoted path after a
`路径/保存到/path` cue, defaults to the configured directory and filename, and
always returns a save descriptor. -/
def parseCreateLayer (command : String) : Descriptor :=
  match searchLabelThen true [String.data "路径", String.data "保存到", String.data "path"]
      quotedAfter command.data with
  | some g => .save (String.mk g)
  | none => .save (osPathJoin configOutputDirectory configDefaultFilename)

/-! ### Intent classifier and top-level orchestation -/

/-- The `draw` × shape intent table encoded by the chain of `if` statements in
the inner loop of `_identify_command_type` (shape tags without a branch fall
through and the loop continues). -/
def drawShapeIntent (shapeType : String) : Option String :=
  if shapeType = "line" then some "draw_line"
  else if shapeType = "circle" then some "draw_circle"
  else if shapeType = "arc" then some "draw_arc"
  else if shapeType = "rectangle" ∨ shapeType = "square" then some "draw_rectangle"
  else if shapeType = "polyline" then some "draw_polyline"
  else if shapeType = "text" then some "draw_text"
  else if shapeType = "dimension" then some "add_dimension"
  else none

/-- The nested action × shape loops of `_identify_command_type`: the first
action phrase (in table order) contained in the command whose inner shape scan
returns an intent decides; the inner scan returns for the first contained
shape phrase when the action tag is `draw` and the shape tag is handled. -/
def classifyPair (command : String) : Option String :=
  actionKeywords.findSome? fun ak =>
    if substrB ak.1 command then
      shapeKeywords.findSome? fun sk =>
        if substrB sk.1 command then
          if ak.2 = "draw" then drawShapeIntent sk.2 else none
        else none
    else none

/-- The part of `_identify_command_type` after the domain loop: the action ×
shape pairing, then the special-case checks in their fixed source order
(layer creation, then `标注`, then `保存`), else `unknown`. -/
def identifyCore (command : String) : String :=
  match classifyPair command with
  | some t => t
  | none =>
    if substrB "图层" command ∧
        (substrB "创建" command ∨ substrB "新建" command ∨ substrB "添加" command) then
      "create_layer"
    else if substrB "标注" command then "add_dimension"
    else if substrB "保存" command then "save"
    else "unknown"

/-- `NLPProcessor._identify_command_type`.  Its first statement iterates
`self.domain_keywords.items()`; the attribute does not exist (its definition is
commented out), so the access raises before any classification happens.  The
remainder of the function is `identifyCore`, with the (unused) domain lookup
kept in place. -/
def identifyCommandType (command : String) : Except PyExc String :=
  match domainKeywordsLookup with
  | .error e => .error e
  | .ok dks =>
    let _domain := dks.findSome? fun kv =>
      if substrB kv.1 command then some kv.2 else none
    .ok (identifyCore command)

/-- The `if`/`elif` dispatch chain of `parse_command`, in source order.  There
is no branch for `add_dimension`; the `draw_wall` branch calls
`self._parse_draw_wall`, a method whose definition is commented out, so
reaching it would raise `AttributeError`. -/
def dispatchCommand (commandType command : String) : Except PyExc Descriptor :=
  if commandType = "draw_line" then .ok (parseDrawLine command)
  else if commandType = "draw_circle" then .ok (parseDrawCircle command)
  else if commandType = "draw_arc" then .ok (parseDrawArc command)
  else if commandType = "draw_rectangle" then .ok (parseDrawRectangle command)
  else if commandType = "draw_polyline" then .ok (parseDrawPolyline command)
  else if commandType = "draw_text" then .ok (parseDrawText command)
  else if commandType = "draw_hatch" then .ok (parseDrawHatch command)
  else if commandType = "save" then .ok (parseSave command)
  else if commandType = "draw_wall" then .error (.attributeError "_parse_draw_wall")
  else if commandType = "create_layer" then .ok (parseCreateLayer command)
  else .ok (.unknown "无法识别的命令类型" command)

/-- `NLPProcessor.parse_command`: lower and strip the text, classify, dispatch. -/
def parseCommand (command : String) : Except PyExc Descriptor :=
  match identifyCommandType (pyStrip (pyLower command)) with
  | .error e => .error e
  | .ok t => dispatchCommand t (pyStrip (pyLower command))

/-- `NLPProcessor.process_command`: logs and delegates to `parse_command`. -/
def processCommand (command : String) : Except PyExc Descriptor :=
  parseCommand command

/-! ### Properties of the coordinate scanner -/

theorem skipWs_ge (cs : List Char) (i : ℕ) : i ≤ skipWs cs i := Nat.le_add_right _ _

theorem matchNumTail_lt {cs : List Char} {s : ℕ} {v : ℚ} {j : ℕ}
    (h : matchNumTail cs s = some (v, j)) : s < j := by
  unfold matchNumTail at h
  split at h
  · exact absurd h (by simp)
  · rename_i hne
    have hlen : (digitsAt cs s).length ≠ 0 := by
      cases hd : digitsAt cs s with
      | nil => rw [hd] at hne; simp at hne
      | cons a l => simp [hd]
    split at h <;> rw [Option.some.injEq, Prod.mk.injEq] at h <;> omega

theorem matchNumFrom_lt {cs : List Char} {i : ℕ} {v : ℚ} {j : ℕ}
    (h : matchNumFrom cs i = some (v, j)) : i < j := by
  unfold matchNumFrom at h
  split at h
  · split at h
    · rename_i v' j' heq
      rw [Option.some.injEq, Prod.mk.injEq] at h
      have := matchNumTail_lt heq
      omega
    · exact absurd h (by simp)
  · exact matchNumTail_lt h

theorem matchThirdGroup_ge (cs : List Char) (i5 : ℕ) : i5 ≤ (matchThirdGroup cs i5).2 := by
  unfold matchThirdGroup
  split
  · split
    · rename_i z j heq
      have h1 := skipWs_ge cs i5
      have h2 := skipWs_ge cs (skipWs cs i5 + 1)
      have h3 := matchNumFrom_lt heq
      simp only
      omega
    · simp only
      omega
  · simp only
    omega

theorem closeParen_ge (cs : List Char) (i : ℕ) : i ≤ closeParen cs i := by
  unfold closeParen
  have := skipWs_ge cs i
  split <;> omega

theorem matchCoordFrom_spec {cs : List Char} {p : ℕ} {m : CoordMatch}
    (h : matchCoordFrom cs p = some m) : m.start = p ∧ p < m.stop := by
  unfold matchCoordFrom at h
  split at h
  · exact absurd h (by simp)
  · rename_i x i2 heq2
    split at h
    · split at h
      · exact absurd h (by simp)
      · rename_i y i5 heq5
        rw [Option.some.injEq] at h
        subst h
        refine ⟨rfl, ?_⟩
        have h2 := matchNumFrom_lt heq2
        have h5 := matchNumFrom_lt heq5
        have h6 := matchThirdGroup_ge cs i5
        have h7 := closeParen_ge cs (matchThirdGroup cs i5).2
        have h8 := skipWs_ge cs (if getC cs p = some '(' then p + 1 else p)
        have h9 := skipWs_ge cs i2
        have h10 := skipWs_ge cs (skipWs cs i2 + 1)
        have h0 : p ≤ (if getC cs p = some '(' then p + 1 else p) := by split <;> omega
        simp only [CoordMatch.stop]
        omega
    · exact absurd h (by simp)

theorem findCoordMatches_ge {cs : List Char} :
    ∀ fuel i : ℕ, ∀ m ∈ findCoordMatches cs fuel i, i ≤ m.start ∧ m.start < m.stop := by
  intro fuel
  induction fuel with
  | zero => intro i m hm; simp [findCoordMatches] at hm
  | succ f ih =>
    intro i m hm
    unfold findCoordMatches at hm
    split at hm
    · simp at hm
    · split at hm
      · rename_i m0 heq
        have hspec := matchCoordFrom_spec heq
        rcases List.mem_cons.mp hm with rfl | h2
        · omega
        · have h3 := ih m0.stop m h2
          omega
      · have h3 := ih (i + 1) m hm
        omega

theorem findCoordMatches_chain (cs : List Char) :
    ∀ fuel i : ℕ, List.Chain' (fun a b => a.stop ≤ b.start) (findCoordMatches cs fuel i) := by
  intro fuel
  induction fuel with
  | zero => intro i; simp [findCoordMatches]
  | succ f ih =>
    intro i
    unfold findCoordMatches
    split
    · simp
    · split
      · rename_i m0 heq
        rw [List.chain'_cons']
        refine ⟨fun y hy => ?_, ih m0.stop⟩
        exact (findCoordMatches_ge f m0.stop y (List.mem_of_mem_head? hy)).1
      · exact ih (i + 1)

/-! ### Claims -/

/-- Claim C1 (refuted — code bug in the source): for every input string,
`parse_command` raises `AttributeError` instead of returning a command
descriptor: the first statement of `_identify_command_type` iterates
`self.domain_keywords`, whose definition in `__init__` is commented out, so no
call ever reaches a builder and failure is not confined to the error/unknown
variants. -/
theorem parse_command_always_raises (command : String) :
    parseCommand command = .error (.attributeError "domain_keywords") := rfl

/-- Claim C2 (refuted — code bug): interpreting "保存" raises `AttributeError`
in the classifier.  Moreover, had the classifier completed, it would classify
"保存" as `save`, whose dispatch branch calls `_parse_save` — a function whose
body parses wall commands — so the result would be the wall-error descriptor,
never `Save{file_path="out/drawing.dwg"}`. -/
theorem save_command_never_builds_save :
    parseCommand "保存" = .error (.attributeError "domain_keywords") ∧
    identifyCore "保存" = "save" ∧
    dispatchCommand "save" "保存" = .ok (.error "绘制墙体需要提供起点和终点坐标") :=
  ⟨rfl, by decide, by decide⟩

/-- Claim C3 (refuted — code bug): the builder dispatched for `create_layer`
is `_parse_create_layer`, whose body (and docstring) parse a *save* command:
for a layer-creation text with a quoted name it returns a save descriptor with
the configured default path, never a create-layer descriptor with a layer name
and color.  Classification itself also raises `AttributeError` first. -/
theorem create_layer_builder_returns_save :
    identifyCore "创建图层 名称\"第一层\"" = "create_layer" ∧
    dispatchCommand "create_layer" "创建图层 名称\"第一层\"" = .ok (.save "out/drawing.dwg") ∧
    parseCommand "创建图层 名称\"第一层\"" = .error (.attributeError "domain_keywords") :=
  ⟨by decide, by decide, rfl⟩

/-- Claim C4 (refuted — code bug): interpreting "画填充 (0,0) (10,0) (10,10)"
raises `AttributeError`; moreover no branch of the classifier ever returns
`draw_hatch` ("填充" is an action keyword, not a shape keyword), so even with
the classifier repaired the text would classify as `unknown`.  The hatch
builder itself, were it reached, would return exactly the claimed descriptor. -/
theorem hatch_example_never_reaches_builder :
    parseCommand "画填充 (0,0) (10,0) (10,10)" = .error (.attributeError "domain_keywords") ∧
    identifyCore "画填充 (0,0) (10,0) (10,10)" = "unknown" ∧
    parseDrawHatch "画填充 (0,0) (10,0) (10,10)" =
      .drawHatch [(0, 0, 0), (10, 0, 0), (10, 10, 0)] "SOLID" 1 :=
  ⟨rfl, by decide, by decide⟩

/-- Claim C5: the hatch builder returns the error descriptor with message
exactly "绘制填充需要至少3个点来定义边界" iff fewer than 3 coordinates are
extracted from the text; with 3 or more it returns a hatch descriptor carrying
all extracted coordinates, never an error. -/
theorem parse_draw_hatch_min_points (command : String) :
    (parseDrawHatch command = .error "绘制填充需要至少3个点来定义边界" ↔
      (extractCoordinates command).length < 3) ∧
    (3 ≤ (extractCoordinates command).length →
      parseDrawHatch command =
        .drawHatch (extractCoordinates command) (hatchPatternName command)
          (hatchScale command)) := by
  by_cases h : 3 ≤ (extractCoordinates command).length
  · rw [parseDrawHatch, if_pos h]
    exact ⟨⟨fun he => absurd he (by simp), fun hlt => absurd h (by omega)⟩, fun _ => rfl⟩
  · rw [parseDrawHatch, if_neg h]
    exact ⟨⟨fun _ => by omega, fun _ => rfl⟩, fun h3 => absurd h3 h⟩

/-- Witness for C5 at a concrete command with three coordinates. -/
theorem parse_draw_hatch_min_points_witness :
    parseDrawHatch "填充 (0,0) (1,0) (1,1)" =
      .drawHatch [(0, 0, 0), (1, 0, 0), (1, 1, 0)] "SOLID" 1 :=
  ((parse_draw_hatch_min_points "填充 (0,0) (1,0) (1,1)").2 (by decide)).trans (by decide)

/-- Claim C6: the polyline builder returns the error descriptor with message
"绘制多段线需要至少两个坐标点" iff fewer than 2 coordinates are extracted;
otherwise it returns a polyline descriptor whose points are all extracted
coordinates in occurrence order and whose closed flag is true exactly when the
text contains "闭合" or "封闭". -/
theorem parse_draw_polyline_min_points (command : String) :
    (parseDrawPolyline command = .error "绘制多段线需要至少两个坐标点" ↔
      (extractCoordinates command).length < 2) ∧
    (2 ≤ (extractCoordinates command).length →
      parseDrawPolyline command =
        .drawPolyline (extractCoordinates command)
          (substrB "闭合" command || substrB "封闭" command)) := by
  by_cases h : 2 ≤ (extractCoordinates command).length
  · rw [parseDrawPolyline, if_pos h]
    exact ⟨⟨fun he => absurd he (by simp), fun hlt => absurd h (by omega)⟩, fun _ => rfl⟩
  · rw [parseDrawPolyline, if_neg h]
    exact ⟨⟨fun _ => by omega, fun _ => rfl⟩, fun h2 => absurd h2 h⟩

/-- Witness for C6 at a concrete command with two coordinates and "闭合". -/
theorem parse_draw_polyline_min_points_witness :
    parseDrawPolyline "画多段线 (0,0) (5,5) 闭合" =
      .drawPolyline [(0, 0, 0), (5, 5, 0)] true :=
  ((parse_draw_polyline_min_points "画多段线 (0,0) (5,5) 闭合").2 (by decide)).trans (by decide)

/-- Claim C7: the coordinate extractor's match spans are pairwise ordered left
to right (each match ends no later than the next begins) and non-empty, the
extracted list is exactly the matches' coordinates in scan order, and a match
without a third number group is lifted to a 3-tuple with z = 0 (every extracted
coordinate is a 3-tuple by construction). -/
theorem extract_coordinates_ordered_and_lifted (s : String) :
    List.Chain' (fun a b => a.stop ≤ b.start) (coordMatches s) ∧
    (∀ m ∈ coordMatches s, m.start < m.stop) ∧
    extractCoordinates s = (coordMatches s).map coordOf ∧
    (∀ m ∈ coordMatches s, m.g3 = none → coordOf m = (m.x, m.y, 0)) := by
  refine ⟨findCoordMatches_chain s.data _ _,
    fun m hm => (findCoordMatches_ge _ _ m hm).2, rfl, ?_⟩
  intro m hm h3
  simp [coordOf, h3]

/-- Witness for C7: the single match of "(1,2)" has no third group and is
lifted with z = 0. -/
theorem extract_coordinates_ordered_and_lifted_witness :
    coordOf ⟨0, 5, 1, 2, none⟩ = (1, 2, 0) :=
  (extract_coordinates_ordered_and_lifted "(1,2)").2.2.2 ⟨0, 5, 1, 2, none⟩ (by decide) rfl

/-- Claim C8 (refuted — code bug): the classifier raises `AttributeError`
before any precedence rule runs, so it never "returns" the action+shape intent
for a text containing both a draw action with a shape and "保存".  The
precedence logic that follows the crashing statement would, once reachable,
classify such texts by the pair (here `draw_line`), not as `save`. -/
theorem classifier_raises_before_precedence :
    identifyCommandType "画直线 (0,0) (10,10) 保存" =
      .error (.attributeError "domain_keywords") ∧
    identifyCore "画直线 (0,0) (10,10) 保存" = "draw_line" ∧
    identifyCore "标注保存" = "add_dimension" :=
  ⟨rfl, by decide, by decide⟩

/-- Claim C9 (refuted): the color table is not ordered longest/most-specific
first — "灰色" precedes "浅灰色" and "红色" precedes "洋红色" — so the
first-match scan resolves "浅灰色" to 8 (the index of "灰色"), not 9, and
"洋红色" to 1 (the index of "红色"), not 6. -/
theorem color_table_shadowing_counterexample :
    extractColorFromCommand (some "浅灰色") = 8 ∧
    extractColorFromCommand (some "浅灰色") ≠ 9 ∧
    extractColorFromCommand (some "洋红色") = 1 ∧
    extractColorFromCommand (some "洋红色") ≠ 6 := by decide

/-- Claim C9 amended: the table lists the short base color names before their
longer derivatives, so for a text containing a longer name of which a shorter
table name is a substring the first-match scan returns the shorter name's
index: "浅灰色" resolves to 8 (via "灰色") and "洋红色" to 1 (via "红色"). -/
theorem color_table_short_name_wins :
    extractColorFromCommand (some "浅灰色") = 8 ∧
    extractColorFromCommand (some "洋红色") = 1 := by decide

/-- Claim C10 (refuted — code bug): `parse_command "标注"` raises
`AttributeError` in the classifier, so it does not return the unknown
descriptor.  The two facts the claim asserts about the rest of the pipeline do
hold: the classifier core (after the crashing statement) maps "标注" to
`add_dimension`, and the dispatch chain has no branch for `add_dimension`, so
it falls through to the unknown descriptor with the claimed diagnostic text. -/
theorem add_dimension_has_no_builder :
    parseCommand "标注" = .error (.attributeError "domain_keywords") ∧
    identifyCore "标注" = "add_dimension" ∧
    dispatchCommand "add_dimension" "标注" = .ok (.unknown "无法识别的命令类型" "标注") :=
  ⟨rfl, by decide, by decide⟩
